import Mathlib

/-
Shallow embedding of keltaklo/Watchdog (src/watchdog/watchdog.py).

Modelling conventions:
- Wall-clock times (time.time() results) are passed explicitly as rational
  `now` arguments wherever the Python code samples the clock.
- Python `should_bark` has no else branch: it returns a bool when the dog is
  active and `None` otherwise.  We model its result as `Option Bool` and the
  truthiness used at call sites (`if watchdog.should_bark(now):`) as `truthy`.
- `DogHouse.dogs` is a Python dict (insertion ordered, unique keys); it is
  modelled as an association list with dict assignment/lookup helpers.
- Logging has no effect on program state and is not modelled; whether the
  reset function is set and callable is the boolean `hasReset`.
-/

/-- The two concrete watchdog variants of the source, `TimeDog` and
`EventDog`, as a tagged sum.  Field order follows the Python attributes:
`name`, `active` (from the `Watchdog` base), then the variant fields
(`timeout_s`, `last_feed` for TimeDog; `max_events`, `current_events` for
EventDog). -/
inductive Watchdog where
  | time (name : String) (active : Bool) (timeout_s : ℚ) (last_feed : ℚ)
  | event (name : String) (active : Bool) (max_events : ℤ) (current_events : ℤ)
deriving DecidableEq

/-- The `active` attribute. -/
def Watchdog.active : Watchdog → Bool
  | .time _ a _ _ => a
  | .event _ a _ _ => a

/-- The `name` attribute. -/
def Watchdog.name : Watchdog → String
  | .time n _ _ _ => n
  | .event n _ _ _ => n

/-- Source `TimeDog.feed`: `self.last_feed = time.time()`;
`EventDog.feed`: `self.current_events = 0`. -/
def Watchdog.feed (now : ℚ) : Watchdog → Watchdog
  | .time n a t _ => .time n a t now
  | .event n a m _ => .event n a m 0

/-- Source `TimeDog.starve`: `pass`; `EventDog.starve`: `self.current_events += 1`. -/
def Watchdog.starve : Watchdog → Watchdog
  | .time n a t lf => .time n a t lf
  | .event n a m c => .event n a m (c + 1)

/-- Source `Watchdog.send_to_kennel`: `self.active = False`. -/
def Watchdog.send_to_kennel : Watchdog → Watchdog
  | .time n _ t lf => .time n false t lf
  | .event n _ m c => .event n false m c

/-- Source `Watchdog.send_to_home`: `self.feed()` then `self.active = True`. -/
def Watchdog.send_to_home (now : ℚ) (w : Watchdog) : Watchdog :=
  match w.feed now with
  | .time n _ t lf => .time n true t lf
  | .event n _ m c => .event n true m c

/-- Source `should_bark(now)`.  Both variants read
`if self.active: return <comparison>` with no else branch, so the Python
function returns `None` when inactive; we model the result as `Option Bool`. -/
def Watchdog.should_bark (now : ℚ) : Watchdog → Option Bool
  | .time _ a t lf => if a then some (decide (now - lf > t)) else none
  | .event _ a m c => if a then some (decide (c > m)) else none

/-- Python truthiness of a `should_bark` result: `None` is falsy. -/
def truthy (o : Option Bool) : Bool :=
  o.getD false

/-- Lookup in a Python dict modelled as an association list
(`self.dogs[k]` / `self.dogs.get(k)` / `k in self.dogs`). -/
def dictGet : List (String × Watchdog) → String → Option Watchdog
  | [], _ => none
  | (k₀, v) :: rest, k => if k₀ = k then some v else dictGet rest k

/-- Python dict assignment `d[k] = v`: overwrite in place if the key is
present (keeping its position), otherwise append. -/
def dictSet : List (String × Watchdog) → String → Watchdog → List (String × Watchdog)
  | [], k, v => [(k, v)]
  | (k₀, v₀) :: rest, k, v =>
    if k₀ = k then (k, v) :: rest else (k₀, v₀) :: dictSet rest k v

/-- Python `d.setdefault(k, v)`: return the existing value if the key is
present, otherwise insert `v` and return it. -/
def dictSetdefault : List (String × Watchdog) → String → Watchdog →
    Watchdog × List (String × Watchdog)
  | [], k, v => (v, [(k, v)])
  | (k₀, v₀) :: rest, k, v =>
    if k₀ = k then (v₀, (k₀, v₀) :: rest)
    else
      let p := dictSetdefault rest k v
      (p.1, (k₀, v₀) :: p.2)

/-- State of `DogHouse`: the `dogs` dict plus whether `_reset_function` is set
and callable (the only fact about it the control flow reads). -/
structure DogHouse where
  dogs : List (String × Watchdog)
  hasReset : Bool
deriving DecidableEq

/-- Source `DogHouse._keytransform`: `key.lower()`, modelled as
per-character lowering of the string. -/
def DogHouse.keytransform (key : String) : String :=
  ⟨key.data.map Char.toLower⟩

/-- Source `DogHouse.__getitem__`: `self.dogs[self._keytransform(key)]`. -/
def DogHouse.getItem (h : DogHouse) (key : String) : Option Watchdog :=
  dictGet h.dogs (DogHouse.keytransform key)

/-- Source `DogHouse.__setitem__`: `self.dogs[self._keytransform(key)] = value`
(the warning log has no state effect). -/
def DogHouse.setItem (h : DogHouse) (key : String) (value : Watchdog) : DogHouse :=
  { h with dogs := dictSet h.dogs (DogHouse.keytransform key) value }

/-- Source `DogHouse.__len__`: `len(self.dogs)`. -/
def DogHouse.len (h : DogHouse) : Nat :=
  h.dogs.length

/-- Source `DogHouse.adopt(name, timeout_s, max_events)`.  Note the source reads
and writes `self.dogs` with the raw `name` (no `_keytransform`):
`if name in self.dogs: return self.dogs.get(name)`, then
`self.dogs.setdefault(name, TimeDog(name, timeout_s))` when `timeout_s`
is not None, then the same with `EventDog(name, max_events)` when
`max_events` is not None, else `raise ValueError(...)`.  `now` is the
clock value at the call (used by the `TimeDog` constructor for
`last_feed`).  The result pairs the returned watchdog (or the raised
error) with the registry state after the call. -/
def DogHouse.adopt (h : DogHouse) (name : String) (timeout_s : Option ℚ)
    (max_events : Option ℤ) (now : ℚ) : Except String Watchdog × DogHouse :=
  match dictGet h.dogs name with
  | some w => (.ok w, h)
  | none =>
    match timeout_s with
    | some t =>
      let p := dictSetdefault h.dogs name (.time name false t now)
      (.ok p.1, { h with dogs := p.2 })
    | none =>
      match max_events with
      | some m =>
        let p := dictSetdefault h.dogs name (.event name false m 0)
        (.ok p.1, { h with dogs := p.2 })
      | none => (.error "Must supply timeout_s or max_events!", h)

/-- Observable outcome of one `check()` sweep: which dogs had
`should_bark` evaluated (in order), which name was logged as starved (if
any), and which watchdog the reset function was invoked on (if any). -/
structure CheckResult where
  evaluated : List String
  barked : Option String
  callbackArg : Option Watchdog
deriving DecidableEq

/-- The loop body of `DogHouse.check`: iterate `self.dogs.items()` in
order; on the first `watchdog.should_bark(now)` that is truthy, log the
error, invoke `self._reset_function(watchdog)` if it is set and callable,
and `break`. -/
def checkAux (hasReset : Bool) (now : ℚ) : List (String × Watchdog) → CheckResult
  | [] => ⟨[], none, none⟩
  | (n, w) :: rest =>
    if truthy (w.should_bark now) then
      ⟨[n], some n, if hasReset then some w else none⟩
    else
      let r := checkAux hasReset now rest
      ⟨n :: r.evaluated, r.barked, r.callbackArg⟩

/-- Source `DogHouse.check()`: captures `now = time.time()` once, then runs the
sweep. -/
def DogHouse.check (h : DogHouse) (now : ℚ) : CheckResult :=
  checkAux h.hasReset now h.dogs

example : truthy ((Watchdog.time "a" true 5 0).should_bark 6) = true := by
  simp [Watchdog.should_bark, truthy]; norm_num
example : truthy ((Watchdog.time "a" false 5 0).should_bark 6) = false := by
  simp [Watchdog.should_bark, truthy]
example : truthy ((Watchdog.event "e" true 2 3).should_bark 0) = true := by
  simp [Watchdog.should_bark, truthy]
example :
    (DogHouse.adopt ⟨[], true⟩ "x" none none 0 =
      (.error "Must supply timeout_s or max_events!", ⟨[], true⟩)) := rfl

/-! Helper lemmas shared by the claim theorems. -/

@[simp]
lemma Watchdog.active_starve (w : Watchdog) : w.starve.active = w.active := by
  cases w <;> rfl

@[simp]
lemma Watchdog.active_send_to_kennel (w : Watchdog) : w.send_to_kennel.active = false := by
  cases w <;> rfl

lemma Watchdog.active_starve_iter (k : Nat) (w : Watchdog) :
    (Watchdog.starve^[k] w).active = w.active := by
  induction k generalizing w with
  | zero => rfl
  | succ k ih =>
    rw [Function.iterate_succ_apply, ih, Watchdog.active_starve]

lemma Watchdog.should_bark_inactive (w : Watchdog) (now : ℚ) (h : w.active = false) :
    w.should_bark now = none := by
  cases w <;> simp_all [Watchdog.should_bark, Watchdog.active]

lemma Watchdog.starve_iter_time (k : Nat) (n : String) (a : Bool) (t lf : ℚ) :
    Watchdog.starve^[k] (.time n a t lf) = .time n a t lf := by
  induction k with
  | zero => rfl
  | succ k ih => rw [Function.iterate_succ_apply, Watchdog.starve, ih]

lemma Watchdog.starve_iter_event (k : Nat) (n : String) (a : Bool) (m c : ℤ) :
    Watchdog.starve^[k] (.event n a m c) = .event n a m (c + k) := by
  induction k generalizing c with
  | zero => simp
  | succ k ih =>
    rw [Function.iterate_succ_apply, Watchdog.starve, ih]
    congr 1
    push_cast
    ring

lemma dictGet_dictSet_self (l : List (String × Watchdog)) (k : String) (v : Watchdog) :
    dictGet (dictSet l k v) k = some v := by
  induction l with
  | nil => simp [dictSet, dictGet]
  | cons p rest ih =>
    obtain ⟨k₀, v₀⟩ := p
    by_cases hk : k₀ = k
    · simp [dictSet, hk, dictGet]
    · simp [dictSet, hk, dictGet, ih]

lemma dictSetdefault_of_none (l : List (String × Watchdog)) (k : String) (v : Watchdog)
    (h : dictGet l k = none) :
    dictSetdefault l k v = (v, l ++ [(k, v)]) := by
  induction l with
  | nil => rfl
  | cons p rest ih =>
    obtain ⟨k₀, v₀⟩ := p
    by_cases hk : k₀ = k
    · simp [dictGet, hk] at h
    · simp only [dictGet, hk, if_false] at h
      simp [dictSetdefault, hk, ih h]

lemma checkAux_of_first_bark (b : Bool) (now : ℚ) (pre : List (String × Watchdog))
    (n : String) (w : Watchdog) (post : List (String × Watchdog))
    (hpre : ∀ p ∈ pre, truthy (p.2.should_bark now) = false)
    (hw : truthy (w.should_bark now) = true) :
    checkAux b now (pre ++ (n, w) :: post) =
      ⟨pre.map Prod.fst ++ [n], some n, if b then some w else none⟩ := by
  induction pre with
  | nil => simp [checkAux, hw]
  | cons p rest ih =>
    have hp : truthy (p.2.should_bark now) = false := hpre p (by simp)
    have hrest : ∀ q ∈ rest, truthy (q.2.should_bark now) = false :=
      fun q hq => hpre q (by simp [hq])
    obtain ⟨pn, pw⟩ := p
    simp only [List.cons_append, checkAux, hp, Bool.false_eq_true, if_false, List.append_eq,
      ih hrest, List.map_cons]

lemma checkAux_of_no_bark (b : Bool) (now : ℚ) (l : List (String × Watchdog))
    (h : ∀ p ∈ l, truthy (p.2.should_bark now) = false) :
    checkAux b now l = ⟨l.map Prod.fst, none, none⟩ := by
  induction l with
  | nil => rfl
  | cons p rest ih =>
    have hp : truthy (p.2.should_bark now) = false := h p (by simp)
    have hrest : ∀ q ∈ rest, truthy (q.2.should_bark now) = false :=
      fun q hq => h q (by simp [hq])
    obtain ⟨pn, pw⟩ := p
    simp only [checkAux, hp, Bool.false_eq_true, if_false, ih hrest, List.map_cons]

/-! Claim theorems. -/

/-- C2: `check` is a single deterministic sweep with one `now` for the whole
pass.  Splitting the registry as `pre ++ (n, w) :: post` where nothing in
`pre` barks and `w` barks: exactly the dogs of `pre` and `w` are evaluated
(in insertion order), the name `n` is logged as starved, the reset callback
receives `w` exactly when it is set and callable, and no dog of `post` is
evaluated.  When no registered dog barks, every dog is evaluated and no
callback is invoked. -/
theorem check_single_sweep_first_fault (h : DogHouse) (now : ℚ) :
    (∀ pre n w post,
        h.dogs = pre ++ (n, w) :: post →
        (∀ p ∈ pre, truthy (p.2.should_bark now) = false) →
        truthy (w.should_bark now) = true →
        h.check now =
          ⟨pre.map Prod.fst ++ [n], some n,
            if h.hasReset then some w else none⟩) ∧
    ((∀ p ∈ h.dogs, truthy (p.2.should_bark now) = false) →
        h.check now = ⟨h.dogs.map Prod.fst, none, none⟩) := by
  constructor
  · intro pre n w post hsplit hpre hw
    rw [DogHouse.check, hsplit, checkAux_of_first_bark h.hasReset now pre n w post hpre hw]
  · intro hall
    rw [DogHouse.check, checkAux_of_no_bark h.hasReset now h.dogs hall]

/-- Witness for C2: a registry with an inactive dog, a barking EventDog and a
third dog; the sweep evaluates the first two only, reports the second and
hands it to the callback. -/
theorem check_single_sweep_first_fault_witness :
    DogHouse.check
        ⟨[("a", .time "a" false 1 0), ("b", .event "b" true 0 5),
          ("c", .time "c" true 1 0)], true⟩ 10 =
      ⟨["a", "b"], some "b", some (.event "b" true 0 5)⟩ := by
  have h := (check_single_sweep_first_fault
      ⟨[("a", .time "a" false 1 0), ("b", .event "b" true 0 5),
        ("c", .time "c" true 1 0)], true⟩ 10).1
      [("a", .time "a" false 1 0)] "b" (.event "b" true 0 5)
      [("c", .time "c" true 1 0)] rfl
      (by
        intro p hp
        simp only [List.mem_singleton] at hp
        subst hp
        simp [Watchdog.should_bark, truthy])
      (by simp [Watchdog.should_bark, truthy])
  simpa using h

/-- C3: adopting a not-yet-registered name with neither `timeout_s` nor
`max_events` raises the `ValueError` synchronously and leaves the registry
unchanged; in particular an empty registry still has length 0. -/
theorem adopt_neither_policy_error (h : DogHouse) (name : String) (now : ℚ)
    (hname : dictGet h.dogs name = none) :
    h.adopt name none none now = (.error "Must supply timeout_s or max_events!", h) ∧
    (h.dogs = [] → (h.adopt name none none now).2.len = 0) := by
  have hmain : h.adopt name none none now =
      (.error "Must supply timeout_s or max_events!", h) := by
    rw [DogHouse.adopt, hname]
  refine ⟨hmain, fun hempty => ?_⟩
  rw [hmain]
  simp [DogHouse.len, hempty]

/-- Witness for C3: `adopt "x"` on an empty registry with no policy. -/
theorem adopt_neither_policy_error_witness :
    DogHouse.adopt ⟨[], true⟩ "x" none none 0 =
        (.error "Must supply timeout_s or max_events!", ⟨[], true⟩) ∧
    (DogHouse.adopt ⟨[], true⟩ "x" none none 0).2.len = 0 := by
  have h := adopt_neither_policy_error ⟨[], true⟩ "x" 0 rfl
  exact ⟨h.1, h.2 rfl⟩

/-- C4: an inactive watchdog never barks: `should_bark` is falsy whenever
`active` is false, and after `send_to_kennel` any number of `starve` calls
and any elapsed time leave `should_bark` falsy. -/
theorem inactive_never_barks (w : Watchdog) (now : ℚ) (k : Nat) (now' : ℚ) :
    (w.active = false → truthy (w.should_bark now) = false) ∧
    truthy ((Watchdog.starve^[k] w.send_to_kennel).should_bark now') = false := by
  constructor
  · intro h
    rw [Watchdog.should_bark_inactive w now h]
    rfl
  · have hact : (Watchdog.starve^[k] w.send_to_kennel).active = false := by
      rw [Watchdog.active_starve_iter, Watchdog.active_send_to_kennel]
    rw [Watchdog.should_bark_inactive _ now' hact]
    rfl

/-- Witness for C4: a deactivated TimeDog far past its timeout, and a
kenneled EventDog starved three more times, both stay silent. -/
theorem inactive_never_barks_witness :
    truthy ((Watchdog.time "a" false 1 0).should_bark 100) = false ∧
    truthy ((Watchdog.starve^[3] (Watchdog.event "e" true 0 5).send_to_kennel).should_bark 100) =
      false :=
  ⟨(inactive_never_barks (.time "a" false 1 0) 100 0 0).1 rfl,
   (inactive_never_barks (.event "e" true 0 5) 0 3 100).2⟩

/-- C8: `starve` on a TimeDog is a no-op: it changes no field, and any
number of `starve` calls leaves `should_bark` at any later time unchanged. -/
theorem timedog_starve_noop (n : String) (a : Bool) (t lf : ℚ) (k : Nat) (now : ℚ) :
    Watchdog.starve (.time n a t lf) = .time n a t lf ∧
    (Watchdog.starve^[k] (.time n a t lf)).should_bark now =
      (Watchdog.time n a t lf).should_bark now := by
  refine ⟨rfl, ?_⟩
  rw [Watchdog.starve_iter_time]

/-- C5 counterexample: a freshly adopted EventDog is inactive (`active`
defaults to false and `adopt` does not activate), so with `max_events = 0`
even after 0 + 1 = 1 `starve` call `should_bark` is still falsy, where the
claim as stated demands true. -/
theorem eventdog_fresh_counterexample :
    (DogHouse.adopt ⟨[], true⟩ "e" none (some 0) 0).1 =
        Except.ok (Watchdog.event "e" false 0 0) ∧
    truthy ((Watchdog.starve (Watchdog.event "e" false 0 0)).should_bark 0) = false :=
  ⟨rfl, rfl⟩

/-- C5 (amended): a freshly adopted and then activated EventDog with
`max_events = n` (for every natural `n`): after exactly `n` `starve` calls
and no further `feed`, `should_bark` is falsy; after `n + 1` `starve`
calls it is truthy (the threshold must be strictly exceeded). -/
theorem eventdog_strict_threshold (name : String) (b : Bool) (n : Nat) (c a now : ℚ) :
    (DogHouse.adopt ⟨[], b⟩ name none (some (n : ℤ)) c).1 =
        Except.ok (Watchdog.event name false n 0) ∧
    truthy ((Watchdog.starve^[n]
        ((Watchdog.event name false n 0).send_to_home a)).should_bark now) = false ∧
    truthy ((Watchdog.starve^[n + 1]
        ((Watchdog.event name false n 0).send_to_home a)).should_bark now) = true := by
  have hhome : (Watchdog.event name false (n : ℤ) 0).send_to_home a =
      Watchdog.event name true n 0 := rfl
  refine ⟨rfl, ?_, ?_⟩
  · rw [hhome, Watchdog.starve_iter_event]
    simp [Watchdog.should_bark, truthy]
  · rw [hhome, Watchdog.starve_iter_event]
    simp only [Watchdog.should_bark, truthy, if_true, Option.getD_some,
      decide_eq_true_eq, zero_add]
    push_cast
    omega

/-- C6: a freshly adopted TimeDog with `timeout_s = t` that is activated at
time `a` and never fed again: `should_bark now` is falsy for every
`now ≤ a + t` (where `a` is its `last_feed` after activation) and truthy
for every `now > a + t` — the comparison is strict. -/
theorem timedog_strict_threshold (name : String) (b : Bool) (t c a now : ℚ) :
    (DogHouse.adopt ⟨[], b⟩ name (some t) none c).1 =
        Except.ok (Watchdog.time name false t c) ∧
    (now ≤ a + t →
        truthy (((Watchdog.time name false t c).send_to_home a).should_bark now) = false) ∧
    (a + t < now →
        truthy (((Watchdog.time name false t c).send_to_home a).should_bark now) = true) := by
  have hhome : (Watchdog.time name false t c).send_to_home a =
      Watchdog.time name true t a := rfl
  refine ⟨rfl, ?_, ?_⟩
  · intro hle
    rw [hhome]
    simp only [Watchdog.should_bark, truthy, if_true, Option.getD_some,
      decide_eq_false_iff_not, not_lt]
    linarith
  · intro hgt
    rw [hhome]
    simp only [Watchdog.should_bark, truthy, if_true, Option.getD_some,
      decide_eq_true_eq]
    linarith

/-- Witness for C6: timeout 10 activated at time 0; silent at `now = 10`,
barking at `now = 11`. -/
theorem timedog_strict_threshold_witness :
    truthy (((Watchdog.time "h" false 10 0).send_to_home 0).should_bark 10) = false ∧
    truthy (((Watchdog.time "h" false 10 0).send_to_home 0).should_bark 11) = true :=
  ⟨(timedog_strict_threshold "h" true 10 0 0 10).2.1 (by norm_num),
   (timedog_strict_threshold "h" true 10 0 0 11).2.2 (by norm_num)⟩

/-- C7: `send_to_home` (activate) feeds before marking active: afterwards
`active` is true, a TimeDog has `last_feed` set to the activation time and
an EventDog has `current_events` reset to 0, so a stale TimeDog with a
non-negative timeout does not bark immediately after activation. -/
theorem activate_feeds_first (w : Watchdog) (now : ℚ) :
    (w.send_to_home now).active = true ∧
    (∀ n a t lf, w = .time n a t lf → w.send_to_home now = .time n true t now) ∧
    (∀ n a m c, w = .event n a m c → w.send_to_home now = .event n true m 0) ∧
    (∀ n a t lf, w = .time n a t lf → 0 ≤ t →
        truthy ((w.send_to_home now).should_bark now) = false) := by
  refine ⟨?_, ?_, ?_, ?_⟩
  · cases w <;> rfl
  · intro n a t lf hw
    subst hw
    rfl
  · intro n a m c hw
    subst hw
    rfl
  · intro n a t lf hw ht
    subst hw
    show truthy (some (decide (now - now > t))) = false
    simp only [truthy, Option.getD_some, decide_eq_false_iff_not, not_lt, sub_self]
    exact ht

/-- Witness for C7: a TimeDog with timeout 3 constructed at time 0 and
activated only at time 100 (long past its timeout): activation resets
`last_feed` to 100, and it does not bark at time 100. -/
theorem activate_feeds_first_witness :
    (Watchdog.time "d" false 3 0).send_to_home 100 = Watchdog.time "d" true 3 100 ∧
    truthy (((Watchdog.time "d" false 3 0).send_to_home 100).should_bark 100) = false :=
  ⟨(activate_feeds_first (.time "d" false 3 0) 100).2.1 "d" false 3 0 rfl,
   (activate_feeds_first (.time "d" false 3 0) 100).2.2.2 "d" false 3 0 rfl (by norm_num)⟩

/-- C9: for a not-yet-registered name, `adopt` with both `timeout_s` and
`max_events` supplied does not raise: it constructs and returns a TimeDog
with the given timeout (`timeout_s` is checked first), appends it to the
registry, and the outcome is identical to the call without `max_events` —
`max_events` is ignored. -/
theorem adopt_both_prefers_timedog (h : DogHouse) (name : String) (t : ℚ) (m : ℤ)
    (now : ℚ) (hname : dictGet h.dogs name = none) :
    h.adopt name (some t) (some m) now =
      (Except.ok (Watchdog.time name false t now),
        ⟨h.dogs ++ [(name, Watchdog.time name false t now)], h.hasReset⟩) ∧
    h.adopt name (some t) (some m) now = h.adopt name (some t) none now := by
  have hsd := dictSetdefault_of_none h.dogs name (.time name false t now) hname
  constructor
  · rw [DogHouse.adopt, hname]
    simp [hsd]
  · rw [DogHouse.adopt, hname, DogHouse.adopt, hname]

/-- Witness for C9: on an empty registry, adopting with both policies set
yields a TimeDog with timeout 5 and the supplied `max_events = 7` is
ignored. -/
theorem adopt_both_prefers_timedog_witness :
    DogHouse.adopt ⟨[], true⟩ "d" (some 5) (some 7) 0 =
      (Except.ok (Watchdog.time "d" false 5 0),
        ⟨[("d", Watchdog.time "d" false 5 0)], true⟩) ∧
    DogHouse.adopt ⟨[], true⟩ "d" (some 5) (some 7) 0 =
      DogHouse.adopt ⟨[], true⟩ "d" (some 5) none 0 := by
  have h := adopt_both_prefers_timedog ⟨[], true⟩ "d" 5 7 0 rfl
  simpa using h

/-- C10: direct item assignment and lookup round-trip under case
normalization: after `registry[k] = w`, looking up any `k'` that equals
`k` up to letter case returns `w` (both `__setitem__` and `__getitem__`
lowercase the key first). -/
theorem setitem_getitem_case_insensitive (h : DogHouse) (k k' : String) (w : Watchdog)
    (hk : DogHouse.keytransform k' = DogHouse.keytransform k) :
    (h.setItem k w).getItem k' = some w := by
  rw [DogHouse.getItem, DogHouse.setItem]
  simp only [hk]
  exact dictGet_dictSet_self h.dogs (DogHouse.keytransform k) w

/-- Witness for C10: set under the key `Fido`, read back under `FIDO`. -/
theorem setitem_getitem_case_insensitive_witness :
    ((DogHouse.setItem ⟨[], true⟩ "Fido" (Watchdog.time "Fido" false 5 0)).getItem "FIDO") =
      some (Watchdog.time "Fido" false 5 0) :=
  setitem_getitem_case_insensitive ⟨[], true⟩ "Fido" "FIDO"
    (Watchdog.time "Fido" false 5 0) (by decide)

/-- C1 at the failing input: `adopt` reads and writes `self.dogs` with the
raw name, bypassing `_keytransform`, so adopting `FIDO` and then `fido`
(same policy) creates two distinct registry entries; moreover the entry
adopted under `FIDO` is not reachable through `__getitem__` (which
lowercases); adoption under the exactly-equal name is idempotent and
returns the existing instance. -/
theorem adopt_bypasses_keytransform :
    (((DogHouse.adopt ⟨[], true⟩ "FIDO" (some 5) none 0).2.adopt
        "fido" (some 5) none 0).2).len = 2 ∧
    ((DogHouse.adopt ⟨[], true⟩ "FIDO" (some 5) none 0).2).getItem "FIDO" = none ∧
    (DogHouse.adopt ⟨[], true⟩ "FIDO" (some 5) none 0).2.adopt "FIDO" (some 9) none 3 =
      (Except.ok (Watchdog.time "FIDO" false 5 0),
        (DogHouse.adopt ⟨[], true⟩ "FIDO" (some 5) none 0).2) := by
  refine ⟨?_, ?_, ?_⟩ <;> rfl
